import Mathlib

/-!
# Verification of the multiplayer-chess room/session server

Shallow embedding of the server-side message handlers of the repository
(`server/routes.ts`, `server/storage.ts`, table declarations in
`shared/schema.ts`).  The WebSocket handlers are embedded as pure
functions from a server state (the in-memory `clients` map plus the
database tables `rooms`, `games`, `chat_messages`) and an inbound
message to a new server state together with the list of outbound sends
`(connection, message)`.  The external chess rules engine (`chess.js`,
an npm dependency, not repository code) is abstracted as a record of
functions `Engine`; concrete test engines are provided for witnesses.
-/

/-- Player colors, the strings `'white'` / `'black'` of the source. -/
inductive Color where
  | white
  | black
deriving DecidableEq, Repr

/-- Game status strings used by the source:
`'waiting'`, `'active'`, `'checkmate'`, `'resigned'`, `'draw'`. -/
inductive GStatus where
  | waiting
  | active
  | checkmate
  | resigned
  | draw
deriving DecidableEq, Repr

/-- A row of the `games` table (`shared/schema.ts`); timestamps omitted
(no claim mentions them). -/
structure Game where
  id : Nat
  roomId : Nat
  currentTurn : Color
  boardState : String
  moveHistory : List String
  status : GStatus
  winner : Option Color
deriving DecidableEq, Repr

/-- A row of the `rooms` table (`shared/schema.ts`). -/
structure Room where
  id : Nat
  code : String
  player1Id : Option Nat
  player2Id : Option Nat
  isActive : Bool
deriving DecidableEq, Repr

/-- A row of the `chat_messages` table (`shared/schema.ts`). -/
structure Chat where
  id : Nat
  roomId : Nat
  playerId : Option Nat
  playerName : String
  message : String
deriving DecidableEq, Repr

/-- The per-connection `ClientConnection` record of `server/routes.ts`
(`{ ws, roomId?, playerId?, playerName?, color? }`); `isOpen` embeds the
transport's `ws.readyState === WebSocket.OPEN` check used before sends. -/
structure Session where
  isOpen : Bool
  roomId : Option Nat
  playerId : Option Nat
  playerName : Option String
  color : Option Color
deriving DecidableEq, Repr

/-- Arguments of a `chess.move({from, to, promotion?})` call. -/
structure MoveArgs where
  mfrom : Option String
  mto : Option String
  promotion : Option String
deriving DecidableEq, Repr

/-- Result of a successful `chess.move` call: the SAN string, the FEN of
the position after the move, the moved piece and the captured piece. -/
structure MoveOut where
  san : String
  fen : String
  piece : String
  captured : Option String
deriving DecidableEq, Repr

/-- A piece as returned by `chess.get(square)`: type and color character
(`'w'` / `'b'`). -/
structure Piece where
  ptype : String
  pcolor : Char
deriving DecidableEq, Repr

/-- Abstraction of the external `chess.js` rules engine.  `move` returns
`none` when `chess.move` throws (chess.js v1 throws on an illegal move).
All queries are taken on an explicit FEN since the source instantiates
`new Chess(fen)` per call.  `moveSan` applies a SAN string to a
position, used only to state the replay-consistency invariant. -/
structure Engine where
  move : String → MoveArgs → Option MoveOut
  getPiece : String → Option String → Option Piece
  isCheckmate : String → Bool
  inCheck : String → Bool
  turn : String → Char
  moveSan : String → String → Option String

/-- Outbound server events (`server/routes.ts` payloads).  Only the
fields the claims talk about are carried. -/
inductive SMsg where
  | connected
  | error (reason : String)
  | roomCreated (roomCode : String) (roomId : Nat) (color : Color)
      (fen : String) (currentTurn : Color) (moveHistory : List String) (status : GStatus)
  | roomJoined (roomCode : String) (roomId : Nat) (color : Color)
      (fen : String) (currentTurn : Color) (moveHistory : List String) (status : GStatus)
      (chats : List Chat)
  | gameStarted (fen : String) (currentTurn : Color) (moveHistory : List String) (status : GStatus)
  | moveMade (mfrom mto : Option String) (promotion : Option String)
      (san : String) (piece : String) (captured : Option String)
      (fen : String) (currentTurn : Color) (moveHistory : List String)
      (status : GStatus) (winner : Option Color)
      (check : Bool) (checkmate : Bool) (draw : Bool) (stalemate : Bool)
      (turn : Char) (gameOver : Bool)
  | chatMessage (id : Nat) (playerName : String) (message : String)
  | gameEnded (winner : Color) (resignedPlayer : Option Color)
  | drawOffered (offeredBy : Option Color)
deriving DecidableEq, Repr

/-- The whole observable server state: the `clients` map (keyed by a
connection id standing for the `WebSocket` object) and the three
database tables, plus the serial counters of the database. -/
structure ServerState where
  clients : List (Nat × Session)
  rooms : List Room
  games : List Game
  chats : List Chat
  nextRoomId : Nat
  nextGameId : Nat
  nextChatId : Nat
deriving DecidableEq, Repr

/-- A send effect: target connection id and message. -/
abbrev Send := Nat × SMsg

/-- `clients.get(ws)`. -/
def lookupClient (cl : List (Nat × Session)) (k : Nat) : Option Session :=
  (cl.find? (fun p => p.1 == k)).map (·.2)

/-- In-place mutation of one client record (the handlers assign fields of
the record held in the `clients` map). -/
def setClient (cl : List (Nat × Session)) (k : Nat) (f : Session → Session) :
    List (Nat × Session) :=
  cl.map (fun p => if p.1 == k then (p.1, f p.2) else p)

/-- `storage.getGameByRoomId`: first `games` row with the given room id. -/
def getGameByRoomId (gs : List Game) (rid : Nat) : Option Game :=
  gs.find? (fun g => g.roomId == rid)

/-- `storage.updateGame`: update the row(s) with the given id. -/
def updateGame (gs : List Game) (gid : Nat) (f : Game → Game) : List Game :=
  gs.map (fun g => if g.id == gid then f g else g)

/-- `storage.getRoomByCode`: the code argument comes straight from the
untrusted payload, hence `Option String`. -/
def getRoomByCode (rs : List Room) (code : Option String) : Option Room :=
  rs.find? (fun r => some r.code == code)

/-- `storage.updateRoom`. -/
def updateRoom (rs : List Room) (rid : Nat) (f : Room → Room) : List Room :=
  rs.map (fun r => if r.id == rid then f r else r)

/-- `storage.getChatMessages`: all chat rows of a room, in insertion
order (the table is appended in creation order). -/
def getChatMessages (cs : List Chat) (rid : Nat) : List Chat :=
  cs.filter (fun c => c.roomId == rid)

/-- JavaScript truthiness of an optional string (`s || d` and
`if (message.promotion)`): `undefined` and `""` are falsy. -/
def strTruthy : Option String → Bool
  | some s => s != ""
  | none => false

/-- `a || d` for optional strings. -/
def jsOr (a : Option String) (d : String) : String :=
  match a with
  | some s => if s = "" then d else s
  | none => d

/-- JavaScript truthiness of an optional number (`if (room.player2Id)`):
`undefined`, `null` and `0` are falsy. -/
def natTruthy : Option Nat → Bool
  | some n => n != 0
  | none => false

/-- `broadcastToRoom(roomId, message, wss, exclude?)` of
`server/routes.ts`: sends to every client whose session is bound to the
room, skipping `exclude`, and only if the socket is open. -/
def broadcastToRoom (cl : List (Nat × Session)) (rid : Nat) (msg : SMsg)
    (exclude : Option Nat) : List Send :=
  cl.filterMap (fun p =>
    if p.2.roomId = some rid ∧ exclude ≠ some p.1 ∧ p.2.isOpen = true then
      some (p.1, msg)
    else
      none)

/-- `generateRoomCode()`: `Math.random().toString(36).substring(2, 8)
.toUpperCase()`.  The argument is the string produced by
`Math.random().toString(36)` (for `x ∈ [0,1)` this is `"0"` or `"0."`
followed by the base-36 digits of the fraction, lower case). -/
def generateRoomCode (randStr : String) : String :=
  String.mk (((randStr.toList.drop 2).take 6).map Char.toUpper)

/-- The FEN of the starting position, `new Chess().fen()`. -/
def startFen : String :=
  "rnbqkbnr/pppppppp/8/8/8/8/PPPPPPPP/RNBQKBNR w KQkq - 0 1"

/-- The expected color character of `handleMakeMove`:
`game.currentTurn === 'white' ? 'w' : 'b'`. -/
def expectedColorChar (c : Color) : Char :=
  if c = Color.white then 'w' else 'b'

/-- The `chess.turn()` character mapped back to a turn color,
`chess.turn() === 'w' ? 'white' : 'black'`. -/
def colorOfTurnChar (c : Char) : Color :=
  if c = 'w' then Color.white else Color.black

/-- The move-attempt logic of `handleMakeMove`: first try the move
without a promotion piece; only when that throws and `message.promotion`
is truthy, retry once with the promotion annotation. -/
def tryMove (E : Engine) (fen : String) (mfrom mto : Option String)
    (promotion : Option String) : Option MoveOut :=
  match E.move fen ⟨mfrom, mto, none⟩ with
  | some mv => some mv
  | none =>
    if strTruthy promotion then E.move fen ⟨mfrom, mto, promotion⟩ else none

/-- The success tail of `handleMakeMove`: given the loaded game row and
the applied move, update the game row and broadcast `move_made` to the
whole room. -/
def applyMoveSuccess (E : Engine) (st : ServerState) (rid : Nat) (g : Game)
    (mfrom mto : Option String) (promotion : Option String) (mv : MoveOut) :
    ServerState × List Send :=
  let newMoveHistory := g.moveHistory ++ [mv.san]
  let nextTurn := colorOfTurnChar (E.turn mv.fen)
  let gameStatus := if E.isCheckmate mv.fen then GStatus.checkmate else GStatus.active
  let winner : Option Color :=
    if E.isCheckmate mv.fen then some g.currentTurn else none
  let st' := { st with
    games := updateGame st.games g.id (fun og =>
      { og with
        boardState := mv.fen
        currentTurn := nextTurn
        moveHistory := newMoveHistory
        status := gameStatus
        winner := winner }) }
  (st', broadcastToRoom st'.clients rid
    (SMsg.moveMade mfrom mto promotion mv.san mv.piece mv.captured
      mv.fen nextTurn newMoveHistory gameStatus winner
      (E.inCheck mv.fen) (E.isCheckmate mv.fen) false false
      (E.turn mv.fen) (gameStatus ≠ GStatus.active)) none)

/-- `handleMakeMove(ws, message, wss)` of `server/routes.ts`. -/
def handleMakeMove (E : Engine) (st : ServerState) (sender : Nat)
    (mfrom mto : Option String) (promotion : Option String) :
    ServerState × List Send :=
  match lookupClient st.clients sender with
  | none => (st, [(sender, SMsg.error "Not in a room")])
  | some c =>
    match c.roomId with
    | none => (st, [(sender, SMsg.error "Not in a room")])
    | some rid =>
      match getGameByRoomId st.games rid with
      | none => (st, [(sender, SMsg.error "Game not found")])
      | some g =>
        if g.status ≠ GStatus.active then
          (st, [(sender, SMsg.error "Game is not active")])
        else if c.color ≠ some g.currentTurn then
          (st, [(sender, SMsg.error "Not your turn")])
        else
          match E.getPiece g.boardState mfrom with
          | none => (st, [(sender, SMsg.error "No piece at source square")])
          | some piece =>
            if piece.pcolor ≠ expectedColorChar g.currentTurn then
              (st, [(sender, SMsg.error "Cannot move opponent\x27s piece")])
            else
              match tryMove E g.boardState mfrom mto promotion with
              | none => (st, [(sender, SMsg.error "Invalid move")])
              | some mv => applyMoveSuccess E st rid g mfrom mto promotion mv

/-- `handleResign(ws, wss)` of `server/routes.ts`.  Note: the handler
performs no check of the game's current status before overwriting it. -/
def handleResign (st : ServerState) (sender : Nat) :
    ServerState × List Send :=
  match lookupClient st.clients sender with
  | none => (st, [(sender, SMsg.error "Not in a room")])
  | some c =>
    match c.roomId with
    | none => (st, [(sender, SMsg.error "Not in a room")])
    | some rid =>
      match getGameByRoomId st.games rid with
      | none => (st, [(sender, SMsg.error "Game not found")])
      | some g =>
        let winner := if c.color = some Color.white then Color.black else Color.white
        let st' := { st with
          games := updateGame st.games g.id (fun og =>
            { og with status := GStatus.resigned, winner := some winner }) }
        (st', broadcastToRoom st'.clients rid
          (SMsg.gameEnded winner c.color) none)

/-- `handleOfferDraw(ws, wss)` of `server/routes.ts`: broadcast only,
excluding the sender; no state change. -/
def handleOfferDraw (st : ServerState) (sender : Nat) :
    ServerState × List Send :=
  match lookupClient st.clients sender with
  | none => (st, [(sender, SMsg.error "Not in a room")])
  | some c =>
    match c.roomId with
    | none => (st, [(sender, SMsg.error "Not in a room")])
    | some rid =>
      (st, broadcastToRoom st.clients rid
        (SMsg.drawOffered c.color) (some sender))

/-- `handleSendChat(ws, message, wss)` of `server/routes.ts` together
with `storage.addChatMessage`.  The handler validates nothing; the
`chat_messages.message` column is declared NOT NULL
(`shared/schema.ts`), so an absent `message` field makes the insert
fail, which the handler catches and reports as an error. -/
def handleSendChat (st : ServerState) (sender : Nat)
    (msgText : Option String) : ServerState × List Send :=
  match lookupClient st.clients sender with
  | none => (st, [(sender, SMsg.error "Not in a room")])
  | some c =>
    match c.roomId with
    | none => (st, [(sender, SMsg.error "Not in a room")])
    | some rid =>
      match msgText with
      | none => (st, [(sender, SMsg.error "Failed to send chat message")])
      | some m =>
        let chat : Chat :=
          { id := st.nextChatId
            roomId := rid
            playerId := c.playerId
            playerName := jsOr c.playerName "Anonymous"
            message := m }
        let st' := { st with chats := st.chats ++ [chat], nextChatId := st.nextChatId + 1 }
        (st', broadcastToRoom st'.clients rid
          (SMsg.chatMessage chat.id chat.playerName chat.message) none)

/-- `handleCreateRoom(ws, message)` of `server/routes.ts`.  `randStr` is
the string `Math.random().toString(36)` drawn inside
`generateRoomCode`.  A code collision violates the UNIQUE constraint of
`rooms.code`, so `storage.createRoom` throws and the catch block answers
with a generic error; there is no retry. -/
def handleCreateRoom (st : ServerState) (sender : Nat) (randStr : String)
    (playerName : Option String) : ServerState × List Send :=
  let code := generateRoomCode randStr
  if st.rooms.any (fun r => r.code == code) then
    (st, [(sender, SMsg.error "Failed to create room")])
  else
    let room : Room :=
      { id := st.nextRoomId, code := code
        player1Id := none, player2Id := none, isActive := true }
    let game : Game :=
      { id := st.nextGameId, roomId := room.id
        currentTurn := Color.white, boardState := startFen
        moveHistory := [], status := GStatus.waiting, winner := none }
    let clients' := setClient st.clients sender (fun c =>
      { c with
        roomId := some room.id
        playerId := some 1
        playerName := some (jsOr playerName "Player 1")
        color := some Color.white })
    let rooms' := updateRoom (st.rooms ++ [room]) room.id
      (fun r => { r with player1Id := some 1 })
    let st' := { st with
      clients := clients'
      rooms := rooms'
      games := st.games ++ [game]
      nextRoomId := st.nextRoomId + 1
      nextGameId := st.nextGameId + 1 }
    (st', [(sender, SMsg.roomCreated code room.id Color.white
      startFen Color.white [] GStatus.waiting)])

/-- `handleJoinRoom(ws, message, wss)` of `server/routes.ts`. -/
def handleJoinRoom (st : ServerState) (sender : Nat)
    (roomCode : Option String) (playerName : Option String) :
    ServerState × List Send :=
  match getRoomByCode st.rooms roomCode with
  | none => (st, [(sender, SMsg.error "Room not found")])
  | some room =>
    if natTruthy room.player2Id then
      (st, [(sender, SMsg.error "Room is full")])
    else
      let rooms' := updateRoom st.rooms room.id (fun r => { r with player2Id := some 2 })
      let clients' := setClient st.clients sender (fun c =>
        { c with
          roomId := some room.id
          playerId := some 2
          playerName := some (jsOr playerName "Player 2")
          color := some Color.black })
      match getGameByRoomId st.games room.id with
      | none =>
        ({ st with rooms := rooms', clients := clients' },
         [(sender, SMsg.error "Game not found")])
      | some game =>
        let games' := updateGame st.games game.id
          (fun og => { og with status := GStatus.active })
        let st' := { st with rooms := rooms', clients := clients', games := games' }
        ((st'),
         (sender, SMsg.roomJoined room.code room.id Color.black
            game.boardState game.currentTurn game.moveHistory GStatus.active
            (getChatMessages st.chats room.id)) ::
         broadcastToRoom clients' room.id
           (SMsg.gameStarted game.boardState game.currentTurn game.moveHistory
             GStatus.active) none)

/-- `handleWebSocketMessage(ws, message, wss)`: the dispatch switch of
`server/routes.ts`.  A message type outside the six recognized cases
falls through the switch and nothing at all happens. -/
structure RawMsg where
  mtype : String
  playerName : Option String
  roomCode : Option String
  mfrom : Option String
  mto : Option String
  promotion : Option String
  message : Option String
deriving DecidableEq, Repr

/-- The dispatch function itself.  The leading guard is
`const client = clients.get(ws); if (!client) return;`. -/
def handleWebSocketMessage (E : Engine) (randStr : String)
    (st : ServerState) (sender : Nat) (m : RawMsg) :
    ServerState × List Send :=
  match lookupClient st.clients sender with
  | none => (st, [])
  | some _ =>
    if m.mtype = "create_room" then
      handleCreateRoom st sender randStr m.playerName
    else if m.mtype = "join_room" then
      handleJoinRoom st sender m.roomCode m.playerName
    else if m.mtype = "make_move" then
      handleMakeMove E st sender m.mfrom m.mto m.promotion
    else if m.mtype = "send_chat" then
      handleSendChat st sender m.message
    else if m.mtype = "resign" then
      handleResign st sender
    else if m.mtype = "offer_draw" then
      handleOfferDraw st sender
    else
      (st, [])

/-- The `ws.on('message')` wrapper: `JSON.parse` failure is caught and
answered with `'Invalid message format'` (only when the socket is still
open); otherwise the parsed message is dispatched.  `parsed = none`
models an unparseable payload, `senderOpen` the sender's
`ws.readyState === WebSocket.OPEN`. -/
def onRawMessage (E : Engine) (randStr : String) (st : ServerState)
    (sender : Nat) (senderOpen : Bool) (parsed : Option RawMsg) :
    ServerState × List Send :=
  match parsed with
  | none =>
    (st, if senderOpen then [(sender, SMsg.error "Invalid message format")] else [])
  | some m => handleWebSocketMessage E randStr st sender m

/-- Replaying a SAN move list from a position through the rules engine:
the Rules-Adapter replay of the spec's consistency invariant. -/
def replayFen (E : Engine) : String → List String → Option String
  | f, [] => some f
  | f, s :: rest =>
    match E.moveSan f s with
    | none => none
    | some f' => replayFen E f' rest

/-- Coherence of the rules engine: applying a move and then replaying
its SAN from the same position reach the same FEN.  This is a property
of `chess.js` (SAN determines the move uniquely in a position). -/
def EngineCoherent (E : Engine) : Prop :=
  ∀ f a out, E.move f a = some out → E.moveSan f out.san = some out.fen

/-- The six message types the dispatch switch recognizes. -/
def recognizedTypes : List String :=
  ["create_room", "join_room", "make_move", "send_chat", "resign", "offer_draw"]

/-- The base-36 digit characters `Number.prototype.toString(36)` emits
for the fractional part. -/
def base36Chars : List Char :=
  "0123456789abcdefghijklmnopqrstuvwxyz".toList

/-- The character set `[A-Z0-9]` of the spec's room-code format. -/
def upperCodeChars : List Char :=
  "0123456789ABCDEFGHIJKLMNOPQRSTUVWXYZ".toList

/-! ## Concrete fixtures used by witnesses and counterexamples -/

/-- A rules engine that rejects every move; used where the engine is
never consulted. -/
def Etriv : Engine :=
  { move := fun _ _ => none
    getPiece := fun _ _ => none
    isCheckmate := fun _ => false
    inCheck := fun _ => false
    turn := fun _ => 'w'
    moveSan := fun _ _ => none }

/-- FEN after `1. e4` from the starting position. -/
def fenAfterE4 : String :=
  "rnbqkbnr/pppppppp/8/8/4P3/8/PPPP1PPP/RNBQKBNR b KQkq e4 0 1"

/-- A position where white has only the promotion push a7-a8. -/
def promoFen : String := "8/P6k/8/8/8/8/8/7K w - - 0 1"

/-- The position after a7-a8=Q from `promoFen`. -/
def promoFenAfter : String := "Q6k/8/8/8/8/8/8/7K b - - 0 1"

/-- A scripted test engine: it knows the move e2-e4 from the starting
position and the promotion a7-a8=Q (which fails without a promotion
annotation) from `promoFen`. -/
def ETest : Engine :=
  { move := fun f a =>
      if f = startFen ∧ a = ⟨some "e2", some "e4", none⟩ then
        some ⟨"e4", fenAfterE4, "p", none⟩
      else if f = promoFen ∧ a = ⟨some "a7", some "a8", some "q"⟩ then
        some ⟨"a8=Q", promoFenAfter, "p", none⟩
      else none
    getPiece := fun f sq =>
      if f = startFen ∧ sq = some "e2" then some ⟨"p", 'w'⟩
      else if f = promoFen ∧ sq = some "a7" then some ⟨"p", 'w'⟩
      else none
    isCheckmate := fun _ => false
    inCheck := fun _ => false
    turn := fun f => if f = fenAfterE4 ∨ f = promoFenAfter then 'b' else 'w'
    moveSan := fun f s =>
      if f = startFen ∧ s = "e4" then some fenAfterE4
      else if f = promoFen ∧ s = "a8=Q" then some promoFenAfter
      else none }

/-- White player session bound to room 1. -/
def clW : Session :=
  { isOpen := true, roomId := some 1, playerId := some 1
    playerName := some "Alice", color := some Color.white }

/-- Black player session bound to room 1. -/
def clB : Session :=
  { isOpen := true, roomId := some 1, playerId := some 2
    playerName := some "Bob", color := some Color.black }

/-- A session bound to room 1 with no name, id or color. -/
def clN : Session :=
  { isOpen := true, roomId := some 1, playerId := none
    playerName := none, color := none }

/-- A full room (both seats taken). -/
def roomW : Room :=
  { id := 1, code := "ABC123", player1Id := some 1, player2Id := some 2
    isActive := true }

/-- An active game at the starting position in room 1. -/
def gameW : Game :=
  { id := 1, roomId := 1, currentTurn := Color.white, boardState := startFen
    moveHistory := [], status := GStatus.active, winner := none }

/-- A terminal game: white has already won by checkmate. -/
def gameT : Game :=
  { gameW with status := GStatus.checkmate, winner := some Color.white }

/-- An active game at the promotion position `promoFen`. -/
def gameP : Game := { gameW with boardState := promoFen }

/-- Baseline server state: two connected players in room 1, active game. -/
def stW : ServerState :=
  { clients := [(0, clW), (1, clB)], rooms := [roomW], games := [gameW]
    chats := [], nextRoomId := 2, nextGameId := 2, nextChatId := 1 }

/-- Server state whose game is already terminal (checkmate). -/
def stT : ServerState := { stW with games := [gameT] }

/-- Server state at the promotion position. -/
def stP : ServerState := { stW with games := [gameP] }

/-- Server state where the sender's session has no player name. -/
def stN : ServerState := { stW with clients := [(0, clN), (1, clB)] }

/-- The white session bound to a different room (room 5). -/
def cl5 : Session := { clW with roomId := some 5 }

/-- Room 1 with its second seat still free. -/
def roomF : Room := { roomW with player2Id := none }

/-- Server state where connection 0 is bound to room 5 while room 1
still has a free seat. -/
def stF : ServerState :=
  { stW with clients := [(0, cl5), (1, clB)], rooms := [roomF] }

/-! ## Helper lemmas -/

/-- Reading back a client record after updating it in place. -/
theorem lookupClient_setClient_self (cl : List (Nat × Session)) (k : Nat)
    (f : Session → Session) :
    lookupClient (setClient cl k f) k = (lookupClient cl k).map f := by
  induction cl with
  | nil => rfl
  | cons hd tl ih =>
    by_cases h : hd.1 = k
    · simp [lookupClient, setClient, List.find?_cons, h]
    · have hb : (hd.1 == k) = false := by simpa using h
      simp only [lookupClient, setClient, List.map_cons] at ih ⊢
      rw [if_neg (by simpa using h)]
      simp only [List.find?_cons, hb]
      exact ih

/-- Finding a game by room id after `updateGame` on the id of the game
the lookup previously returned, for an update that does not change the
room id. -/
theorem getGameByRoomId_updateGame (gs : List Game) (rid : Nat) (g : Game)
    (f : Game → Game) (hf : ∀ x, (f x).roomId = x.roomId)
    (h : getGameByRoomId gs rid = some g) :
    getGameByRoomId (updateGame gs g.id f) rid = some (f g) := by
  induction gs with
  | nil => simp [getGameByRoomId] at h
  | cons hd tl ih =>
    by_cases hr : hd.roomId = rid
    · have hb : (hd.roomId == rid) = true := by simpa using hr
      simp only [getGameByRoomId, List.find?_cons, hb] at h
      cases h
      simp [getGameByRoomId, updateGame, List.find?_cons, hf, hr]
    · have hb : (hd.roomId == rid) = false := by simpa using hr
      simp only [getGameByRoomId, List.find?_cons, hb] at h
      have ih' := ih h
      simp only [getGameByRoomId, updateGame, List.map_cons, List.find?_cons] at ih' ⊢
      by_cases hid : hd.id = g.id
      · rw [if_pos (by simpa using hid)]
        have : ((f hd).roomId == rid) = false := by simp [hf, hr]
        rw [this]
        exact ih'
      · rw [if_neg (by simpa using hid), hb]
        exact ih'

/-- Every send produced by an excluding broadcast goes to an open
session of the room other than the excluded connection, and carries the
broadcast message. -/
theorem mem_broadcastToRoom (cl : List (Nat × Session)) (rid : Nat)
    (msg : SMsg) (ex : Nat) (e : Send)
    (he : e ∈ broadcastToRoom cl rid msg (some ex)) :
    e.1 ≠ ex ∧ e.2 = msg ∧
      ∃ s, (e.1, s) ∈ cl ∧ s.roomId = some rid ∧ s.isOpen = true := by
  simp only [broadcastToRoom, List.mem_filterMap] at he
  obtain ⟨p, hp, hpe⟩ := he
  by_cases hc : p.2.roomId = some rid ∧ some ex ≠ some p.1 ∧ p.2.isOpen = true
  · rw [if_pos hc] at hpe
    cases hpe
    refine ⟨?_, rfl, p.2, ?_, hc.1, hc.2.2⟩
    · intro hcontra
      exact hc.2.1 (by rw [hcontra])
    · simpa using hp
  · rw [if_neg hc] at hpe
    cases hpe

/-- Replay of a move list extended by one SAN move. -/
theorem replayFen_append (E : Engine) (l : List String) (f s : String) :
    replayFen E f (l ++ [s]) =
      (replayFen E f l).bind (fun f2 => E.moveSan f2 s) := by
  induction l generalizing f with
  | nil =>
    simp only [List.nil_append, replayFen]
    cases h : E.moveSan f s <;> simp [h, replayFen]
  | cons hd tl ih =>
    simp only [List.cons_append, replayFen]
    cases E.moveSan f hd <;> simp [ih]

/-- A successful `tryMove` comes from one of the two underlying
`chess.move` calls. -/
theorem tryMove_move (E : Engine) (fen : String) (mfrom mto : Option String)
    (promotion : Option String) (mv : MoveOut)
    (h : tryMove E fen mfrom mto promotion = some mv) :
    ∃ a, E.move fen a = some mv := by
  unfold tryMove at h
  cases hm : E.move fen ⟨mfrom, mto, none⟩ with
  | some mv' =>
    rw [hm] at h
    cases h
    exact ⟨_, hm⟩
  | none =>
    rw [hm] at h
    by_cases hp : strTruthy promotion = true
    · rw [if_pos hp] at h
      exact ⟨_, h⟩
    · rw [if_neg hp] at h
      cases h

/-- Upper-casing a base-36 digit lands in `[A-Z0-9]`. -/
theorem toUpper_base36 : ∀ c ∈ base36Chars, Char.toUpper c ∈ upperCodeChars := by
  decide

/-! ## Claim theorems -/

/-- C2: whenever a `make_move` precondition fails — the game is not
active, the mover's color differs from `currentTurn`, the from-square
holds no piece, or the piece belongs to the other side — the handler
sends exactly one specific error event to the originating connection,
broadcasts nothing, and leaves the whole server state (including
`boardState`, `moveHistory`, `currentTurn`, `status`, `winner`)
unchanged. -/
theorem make_move_precondition_failures (E : Engine) (st : ServerState)
    (sender : Nat) (mfrom mto promotion : Option String)
    (c : Session) (rid : Nat) (g : Game)
    (hc : lookupClient st.clients sender = some c)
    (hrid : c.roomId = some rid)
    (hg : getGameByRoomId st.games rid = some g) :
    (g.status ≠ GStatus.active →
      handleMakeMove E st sender mfrom mto promotion =
        (st, [(sender, SMsg.error "Game is not active")])) ∧
    (g.status = GStatus.active → c.color ≠ some g.currentTurn →
      handleMakeMove E st sender mfrom mto promotion =
        (st, [(sender, SMsg.error "Not your turn")])) ∧
    (g.status = GStatus.active → c.color = some g.currentTurn →
      E.getPiece g.boardState mfrom = none →
      handleMakeMove E st sender mfrom mto promotion =
        (st, [(sender, SMsg.error "No piece at source square")])) ∧
    (∀ p, g.status = GStatus.active → c.color = some g.currentTurn →
      E.getPiece g.boardState mfrom = some p →
      p.pcolor ≠ expectedColorChar g.currentTurn →
      handleMakeMove E st sender mfrom mto promotion =
        (st, [(sender, SMsg.error "Cannot move opponent\x27s piece")])) := by
  refine ⟨?_, ?_, ?_, ?_⟩
  · intro h
    simp [handleMakeMove, hc, hrid, hg, h]
  · intro h1 h2
    simp [handleMakeMove, hc, hrid, hg, h1, h2]
  · intro h1 h2 h3
    simp [handleMakeMove, hc, hrid, hg, h1, h2, h3]
  · intro p h1 h2 h3 h4
    simp [handleMakeMove, hc, hrid, hg, h1, h2, h3, h4]

/-- Witness for C2: at a terminal game the move is rejected with
`'Game is not active'`; at an active game an out-of-turn mover gets
`'Not your turn'`; in both cases the state is returned untouched. -/
theorem make_move_precondition_failures_witness :
    handleMakeMove Etriv stT 0 (some "e2") (some "e4") none =
      (stT, [(0, SMsg.error "Game is not active")]) ∧
    handleMakeMove Etriv stW 1 (some "e7") (some "e5") none =
      (stW, [(1, SMsg.error "Not your turn")]) := by
  constructor
  · exact (make_move_precondition_failures Etriv stT 0 (some "e2") (some "e4")
      none clW 1 gameT rfl rfl rfl).1 (by decide)
  · exact (make_move_precondition_failures Etriv stW 1 (some "e7") (some "e5")
      none clB 1 gameW rfl rfl rfl).2.1 (by decide) (by decide)

/-- C6: `join_room` against a room whose second seat is taken answers
`'Room is full'` only to the joiner; `join_room` with a code matching no
room answers `'Room not found'`; in both cases the state — seats,
bindings, game — is returned untouched. -/
theorem join_room_failure_cases (st : ServerState) (sender : Nat)
    (code : Option String) (pn : Option String) :
    (getRoomByCode st.rooms code = none →
      handleJoinRoom st sender code pn =
        (st, [(sender, SMsg.error "Room not found")])) ∧
    (∀ room, getRoomByCode st.rooms code = some room →
      natTruthy room.player2Id = true →
      handleJoinRoom st sender code pn =
        (st, [(sender, SMsg.error "Room is full")])) := by
  constructor
  · intro h
    simp [handleJoinRoom, h]
  · intro room h1 h2
    simp [handleJoinRoom, h1, h2]

/-- Witness for C6: joining the full room `ABC123` fails with
`'Room is full'`, joining the unknown code `ZZZZZZ` fails with
`'Room not found'`, both leaving the state untouched. -/
theorem join_room_failure_cases_witness :
    handleJoinRoom stW 2 (some "ABC123") none =
      (stW, [(2, SMsg.error "Room is full")]) ∧
    handleJoinRoom stW 2 (some "ZZZZZZ") none =
      (stW, [(2, SMsg.error "Room not found")]) := by
  constructor
  · exact (join_room_failure_cases stW 2 (some "ABC123") none).2 roomW
      (by decide) (by decide)
  · exact (join_room_failure_cases stW 2 (some "ZZZZZZ") none).1 (by decide)

/-- C9: `offer_draw` from a session bound to a room leaves the whole
state unchanged and only emits a `draw_offered` broadcast; every send it
produces goes to an open connection of the same room other than the
sender. -/
theorem offer_draw_broadcast_only (st : ServerState) (sender : Nat)
    (c : Session) (rid : Nat)
    (hc : lookupClient st.clients sender = some c)
    (hrid : c.roomId = some rid) :
    handleOfferDraw st sender =
      (st, broadcastToRoom st.clients rid (SMsg.drawOffered c.color) (some sender)) ∧
    ∀ e ∈ (handleOfferDraw st sender).2,
      e.1 ≠ sender ∧ e.2 = SMsg.drawOffered c.color ∧
        ∃ s, (e.1, s) ∈ st.clients ∧ s.roomId = some rid ∧ s.isOpen = true := by
  have h1 : handleOfferDraw st sender =
      (st, broadcastToRoom st.clients rid (SMsg.drawOffered c.color) (some sender)) := by
    simp [handleOfferDraw, hc, hrid]
  refine ⟨h1, ?_⟩
  intro e he
  rw [h1] at he
  exact mem_broadcastToRoom st.clients rid (SMsg.drawOffered c.color) sender e he

/-- Witness for C9: a draw offer by the white player of `stW` changes
nothing and reaches exactly the other player. -/
theorem offer_draw_broadcast_only_witness :
    handleOfferDraw stW 0 = (stW, [(1, SMsg.drawOffered (some Color.white))]) := by
  have h := (offer_draw_broadcast_only stW 0 clW 1 rfl rfl).1
  rw [h]
  decide

/-- C1 counterexample: the game of `stT` is already terminal
(`checkmate`, winner white), yet a `resign` by the white player is not
rejected — it overwrites `status` to `resigned` and `winner` to black
and broadcasts `game_ended`, sending no error at all. -/
theorem resign_on_terminal_game_mutates :
    gameT.status = GStatus.checkmate ∧ gameT.winner = some Color.white ∧
    (handleResign stT 0).1.games =
      [{ gameT with status := GStatus.resigned, winner := some Color.black }] ∧
    (handleResign stT 0).2 =
      [(0, SMsg.gameEnded Color.black (some Color.white)),
       (1, SMsg.gameEnded Color.black (some Color.white))] := by
  decide

/-- C1 (amended): once `status` is terminal, no `make_move` mutates the
game — it is rejected with `'Game is not active'` and changes nothing —
but `resign` performs no terminal-state check: a resign on any game,
terminal or not, overwrites `status` to `resigned` and `winner` to the
resigner's opponent. -/
theorem terminal_state_mutation_behavior (E : Engine) (st : ServerState)
    (sender : Nat) (mfrom mto promotion : Option String)
    (c : Session) (rid : Nat) (g : Game)
    (hc : lookupClient st.clients sender = some c)
    (hrid : c.roomId = some rid)
    (hg : getGameByRoomId st.games rid = some g) :
    (g.status ≠ GStatus.active →
      handleMakeMove E st sender mfrom mto promotion =
        (st, [(sender, SMsg.error "Game is not active")])) ∧
    getGameByRoomId (handleResign st sender).1.games rid =
      some { g with
        status := GStatus.resigned
        winner := some (if c.color = some Color.white then Color.black else Color.white) } := by
  constructor
  · intro h
    simp [handleMakeMove, hc, hrid, hg, h]
  · have hres : (handleResign st sender).1.games =
        updateGame st.games g.id (fun og =>
          { og with
            status := GStatus.resigned
            winner := some (if c.color = some Color.white then Color.black else Color.white) }) := by
      simp [handleResign, hc, hrid, hg]
    rw [hres]
    exact getGameByRoomId_updateGame st.games rid g _ (fun x => rfl) hg

/-- Witness for the amended C1, at the terminal state `stT`: the move is
rejected, while the resign rewrites the already-terminal game. -/
theorem terminal_state_mutation_behavior_witness :
    handleMakeMove Etriv stT 0 (some "a2") (some "a3") none =
      (stT, [(0, SMsg.error "Game is not active")]) ∧
    getGameByRoomId (handleResign stT 0).1.games 1 =
      some { gameT with status := GStatus.resigned, winner := some Color.black } := by
  have h := terminal_state_mutation_behavior Etriv stT 0 (some "a2") (some "a3")
    none clW 1 gameT rfl rfl rfl
  exact ⟨h.1 (by decide), h.2⟩

/-- C5 counterexample: a parseable message with the unrecognized type
`"bogus"` falls through the dispatch switch — the server sends nothing
at all, in particular no error event. -/
theorem unknown_type_gets_no_response :
    handleWebSocketMessage Etriv "0" stW 0
      ⟨"bogus", none, none, none, none, none, none⟩ = (stW, []) ∧
    "bogus" ∉ recognizedTypes := by
  decide

/-- C5 (amended): an unparseable payload is answered (only to the
originating, still-open connection) with `'Invalid message format'` and
mutates nothing; a parseable message whose type is not one of the six
recognized types is silently ignored: no response, no mutation, no
broadcast. -/
theorem dispatch_unrecognized_and_malformed (E : Engine) (randStr : String)
    (st : ServerState) (sender : Nat) (m : RawMsg)
    (hm : m.mtype ∉ recognizedTypes) :
    handleWebSocketMessage E randStr st sender m = (st, []) ∧
    onRawMessage E randStr st sender true none =
      (st, [(sender, SMsg.error "Invalid message format")]) ∧
    onRawMessage E randStr st sender false none = (st, []) := by
  refine ⟨?_, rfl, rfl⟩
  simp only [recognizedTypes, List.mem_cons, List.not_mem_nil, or_false] at hm
  push_neg at hm
  obtain ⟨h1, h2, h3, h4, h5, h6⟩ := hm
  unfold handleWebSocketMessage
  cases lookupClient st.clients sender <;> simp [h1, h2, h3, h4, h5, h6]

/-- Witness for the amended C5 at a concrete unknown message type. -/
theorem dispatch_unrecognized_and_malformed_witness :
    handleWebSocketMessage Etriv "0" stW 0
      ⟨"accept_draw", none, none, none, none, none, none⟩ = (stW, []) ∧
    onRawMessage Etriv "0" stW 0 true none =
      (stW, [(0, SMsg.error "Invalid message format")]) := by
  have h := dispatch_unrecognized_and_malformed Etriv "0" stW 0
    ⟨"accept_draw", none, none, none, none, none, none⟩ (by decide)
  exact ⟨h.1, h.2.1⟩

/-- C8 counterexample: connection 0 of `stW` is already bound to room 1,
yet `create_room` succeeds, silently rebinds it to the new room 2 and
answers `room_created` — the rebinding to a different room is not
rejected. -/
theorem rebind_to_other_room_not_rejected :
    clW.roomId = some 1 ∧
    lookupClient (handleCreateRoom stW 0 "0.xyz789" (some "Alice")).1.clients 0 =
      some { clW with roomId := some 2 } ∧
    (handleCreateRoom stW 0 "0.xyz789" (some "Alice")).2 =
      [(0, SMsg.roomCreated "XYZ789" 2 Color.white startFen Color.white []
        GStatus.waiting)] := by
  decide

/-- C8 (amended): `create_room` and `join_room` rebind the session
unconditionally, silently overwriting whatever binding the connection
had before; no rejection ever happens. -/
theorem bind_overwrites_unconditionally (st : ServerState) (sender : Nat)
    (randStr : String) (pn code : Option String) (c : Session)
    (room : Room) (game : Game)
    (hc : lookupClient st.clients sender = some c)
    (hnocol : st.rooms.any (fun r => r.code == generateRoomCode randStr) = false)
    (hr : getRoomByCode st.rooms code = some room)
    (hfree : natTruthy room.player2Id = false)
    (hgm : getGameByRoomId st.games room.id = some game) :
    lookupClient (handleCreateRoom st sender randStr pn).1.clients sender =
      some { c with
        roomId := some st.nextRoomId
        playerId := some 1
        playerName := some (jsOr pn "Player 1")
        color := some Color.white } ∧
    lookupClient (handleJoinRoom st sender code pn).1.clients sender =
      some { c with
        roomId := some room.id
        playerId := some 2
        playerName := some (jsOr pn "Player 2")
        color := some Color.black } := by
  constructor
  · have h1 : (handleCreateRoom st sender randStr pn).1.clients =
        setClient st.clients sender (fun x =>
          { x with
            roomId := some st.nextRoomId
            playerId := some 1
            playerName := some (jsOr pn "Player 1")
            color := some Color.white }) := by
      simp [handleCreateRoom, hnocol]
    rw [h1, lookupClient_setClient_self, hc]
    rfl
  · have h2 : (handleJoinRoom st sender code pn).1.clients =
        setClient st.clients sender (fun x =>
          { x with
            roomId := some room.id
            playerId := some 2
            playerName := some (jsOr pn "Player 2")
            color := some Color.black }) := by
      simp [handleJoinRoom, hr, hfree, hgm]
    rw [h2, lookupClient_setClient_self, hc]
    rfl

/-- Witness for the amended C8 at `stF`: connection 0 is bound to room
5, and both a fresh `create_room` and a `join_room` into room 1 simply
overwrite that binding. -/
theorem bind_overwrites_unconditionally_witness :
    lookupClient (handleCreateRoom stF 0 "0.qq1234" (some "Alice")).1.clients 0 =
      some { cl5 with roomId := some 2 } ∧
    lookupClient (handleJoinRoom stF 0 (some "ABC123") (some "Alice")).1.clients 0 =
      some { cl5 with roomId := some 1, playerId := some 2, playerName := some "Alice",
                      color := some Color.black } := by
  have h := bind_overwrites_unconditionally stF 0 "0.qq1234" (some "Alice")
    (some "ABC123") cl5 roomF gameW rfl (by decide) (by decide) (by decide) (by decide)
  exact ⟨h.1, h.2⟩

/-- C4 counterexample: `Math.random() = 0.5` has
`(0.5).toString(36) = "0.i"`, and `generateRoomCode` turns it into the
one-character code `"I"` — room codes are not always exactly 6
characters long. -/
theorem room_code_not_always_six_chars :
    generateRoomCode "0.i" = "I" ∧ (generateRoomCode "0.i").length ≠ 6 := by
  decide

/-- C4 (amended): a generated room code has at most 6 characters, all
drawn from `[A-Z0-9]` (exactly 6 only when the random fraction carries
at least six base-36 digits); uniqueness is not enforced by retrying —
on a code collision `createRoom` fails and the handler answers
`'Failed to create room'`, creating and changing nothing. -/
theorem room_code_shape_and_no_retry (randStr : String) (st : ServerState)
    (sender : Nat) (pn : Option String)
    (hwf : randStr = "0" ∨
      ∃ t, randStr = "0." ++ t ∧ ∀ ch ∈ t.toList, ch ∈ base36Chars) :
    (generateRoomCode randStr).length ≤ 6 ∧
    (∀ ch ∈ (generateRoomCode randStr).toList, ch ∈ upperCodeChars) ∧
    (st.rooms.any (fun r => r.code == generateRoomCode randStr) = true →
      handleCreateRoom st sender randStr pn =
        (st, [(sender, SMsg.error "Failed to create room")])) := by
  have key : ∀ t : String, (∀ ch ∈ t.toList, ch ∈ base36Chars) →
      (generateRoomCode ("0." ++ t)).length ≤ 6 ∧
      ∀ ch ∈ (generateRoomCode ("0." ++ t)).toList, ch ∈ upperCodeChars := by
    intro t hch
    have hlist : ("0." ++ t).toList = '0' :: '.' :: t.toList := by
      show ("0." ++ t).data = '0' :: '.' :: t.data
      rw [String.data_append]
      rfl
    constructor
    · show (String.mk ((((("0." ++ t).toList).drop 2).take 6).map Char.toUpper)).length ≤ 6
      rw [String.length_mk, List.length_map, hlist]
      simp only [List.drop_succ_cons, List.drop_zero]
      rw [List.length_take]
      exact min_le_left _ _
    · intro ch hmem
      have hmem' : ch ∈ (t.toList.take 6).map Char.toUpper := by
        simpa [generateRoomCode, hlist, String.toList] using hmem
      obtain ⟨c0, hc0, hup⟩ := List.mem_map.mp hmem'
      subst hup
      exact toUpper_base36 c0 (hch c0 (List.take_subset 6 t.toList hc0))
  refine ⟨?_, ?_, ?_⟩
  · rcases hwf with h0 | ⟨t, ht, hch⟩
    · subst h0
      decide
    · subst ht
      exact (key t hch).1
  · rcases hwf with h0 | ⟨t, ht, hch⟩
    · subst h0
      decide
    · subst ht
      exact (key t hch).2
  · intro h
    simp [handleCreateRoom, h]

/-- Witness for the amended C4: the random string `"0.abc123"` yields
the code `"ABC123"`, which collides with the existing room of `stW`, and
the create is answered with a plain error, no retry. -/
theorem room_code_shape_and_no_retry_witness :
    (generateRoomCode "0.abc123").length ≤ 6 ∧
    (∀ ch ∈ (generateRoomCode "0.abc123").toList, ch ∈ upperCodeChars) ∧
    handleCreateRoom stW 0 "0.abc123" none =
      (stW, [(0, SMsg.error "Failed to create room")]) := by
  have h := room_code_shape_and_no_retry "0.abc123" stW 0 none
    (Or.inr ⟨"abc123", by decide, by decide⟩)
  exact ⟨h.1, h.2.1, h.2.2 (by decide)⟩

/-- C10 counterexample: a `send_chat` whose payload has no `message`
field is not persisted and not broadcast — the NOT NULL insert fails and
the handler answers `'Failed to send chat message'` to the sender only. -/
theorem missing_chat_message_rejected :
    handleSendChat stW 0 none =
      (stW, [(0, SMsg.error "Failed to send chat message")]) ∧
    (handleSendChat stW 0 none).1.chats = [] := by
  decide

/-- C10 (amended): the handler validates nothing about a present
`message` string — any string, including the empty one, is persisted
verbatim and broadcast to the whole room, with `playerName` falling back
to the literal `'Anonymous'` when the session has none — but an absent
`message` field fails the NOT NULL insert and only produces an error to
the sender. -/
theorem send_chat_no_validation (st : ServerState) (sender : Nat)
    (c : Session) (rid : Nat) (m : String)
    (hc : lookupClient st.clients sender = some c)
    (hrid : c.roomId = some rid) :
    (handleSendChat st sender (some m)).1.chats =
      st.chats ++ [{ id := st.nextChatId, roomId := rid, playerId := c.playerId
                     playerName := jsOr c.playerName "Anonymous", message := m }] ∧
    (handleSendChat st sender (some m)).2 =
      broadcastToRoom st.clients rid
        (SMsg.chatMessage st.nextChatId (jsOr c.playerName "Anonymous") m) none ∧
    (c.playerName = none → jsOr c.playerName "Anonymous" = "Anonymous") ∧
    handleSendChat st sender none =
      (st, [(sender, SMsg.error "Failed to send chat message")]) := by
  refine ⟨?_, ?_, ?_, ?_⟩
  · simp [handleSendChat, hc, hrid]
  · simp [handleSendChat, hc, hrid]
  · intro h
    rw [h]
    rfl
  · simp [handleSendChat, hc, hrid]

/-- Witness for the amended C10 at `stN`: the empty chat message from
the nameless session is stored as
`{playerName := "Anonymous", message := ""}` and broadcast to the whole
room (sender included), while the missing-field variant only errors. -/
theorem send_chat_no_validation_witness :
    (handleSendChat stN 0 (some "")).1.chats =
      [{ id := 1, roomId := 1, playerId := none
         playerName := "Anonymous", message := "" }] ∧
    (handleSendChat stN 0 (some "")).2 =
      [(0, SMsg.chatMessage 1 "Anonymous" ""), (1, SMsg.chatMessage 1 "Anonymous" "")] ∧
    handleSendChat stN 0 none =
      (stN, [(0, SMsg.error "Failed to send chat message")]) := by
  have h := send_chat_no_validation stN 0 clN 1 "" rfl rfl
  refine ⟨?_, ?_, h.2.2.2⟩
  · rw [h.1]
    decide
  · rw [h.2.1]
    decide

/-- The scripted test engine is coherent: replaying the SAN of a move it
accepts reaches the same position. -/
theorem ETest_coherent : EngineCoherent ETest := by
  intro f a out h
  simp only [ETest] at h
  split_ifs at h with h1 h2
  · obtain ⟨hf, ha⟩ := h1
    subst hf
    cases h
    decide
  · obtain ⟨hf, ha⟩ := h2
    subst hf
    cases h
    decide

/-- C3: a successful `make_move` on an active game appends the move's
SAN to `moveHistory`, sets `boardState` to the post-move FEN, sets
`currentTurn` to the side to move of the new position, sets
`status = checkmate` with `winner` = the mover's color exactly when the
engine reports checkmate (otherwise the game stays `active` with no
winner — a draw status is never set automatically), touches nothing else
in the state, and preserves the consistency invariant that `boardState`
is the replay of `moveHistory` from the start position. -/
theorem make_move_success (E : Engine) (st : ServerState) (sender : Nat)
    (mfrom mto promotion : Option String) (c : Session) (rid : Nat)
    (g : Game) (mv : MoveOut)
    (hc : lookupClient st.clients sender = some c)
    (hrid : c.roomId = some rid)
    (hg : getGameByRoomId st.games rid = some g)
    (hact : g.status = GStatus.active)
    (hturn : c.color = some g.currentTurn)
    (hp : ∃ p, E.getPiece g.boardState mfrom = some p ∧
      p.pcolor = expectedColorChar g.currentTurn)
    (hmv : tryMove E g.boardState mfrom mto promotion = some mv) :
    (handleMakeMove E st sender mfrom mto promotion).1.rooms = st.rooms ∧
    (handleMakeMove E st sender mfrom mto promotion).1.clients = st.clients ∧
    (handleMakeMove E st sender mfrom mto promotion).1.chats = st.chats ∧
    ∃ g2,
      getGameByRoomId (handleMakeMove E st sender mfrom mto promotion).1.games rid =
        some g2 ∧
      g2.moveHistory = g.moveHistory ++ [mv.san] ∧
      g2.boardState = mv.fen ∧
      g2.currentTurn = colorOfTurnChar (E.turn mv.fen) ∧
      (E.isCheckmate mv.fen = true →
        g2.status = GStatus.checkmate ∧ g2.winner = some g.currentTurn) ∧
      (E.isCheckmate mv.fen = false →
        g2.status = GStatus.active ∧ g2.winner = none) ∧
      g2.status ≠ GStatus.draw ∧
      (EngineCoherent E → replayFen E startFen g.moveHistory = some g.boardState →
        replayFen E startFen g2.moveHistory = some g2.boardState) := by
  obtain ⟨p, hpe, hpc⟩ := hp
  have hred : handleMakeMove E st sender mfrom mto promotion =
      applyMoveSuccess E st rid g mfrom mto promotion mv := by
    simp [handleMakeMove, hc, hrid, hg, hact, hturn, hpe, hpc, hmv]
  rw [hred]
  refine ⟨rfl, rfl, rfl, ?_⟩
  refine ⟨{ g with
      boardState := mv.fen
      currentTurn := colorOfTurnChar (E.turn mv.fen)
      moveHistory := g.moveHistory ++ [mv.san]
      status := if E.isCheckmate mv.fen then GStatus.checkmate else GStatus.active
      winner := if E.isCheckmate mv.fen then some g.currentTurn else none },
    ?_, rfl, rfl, rfl, ?_, ?_, ?_, ?_⟩
  · exact getGameByRoomId_updateGame st.games rid g _ (fun x => rfl) hg
  · intro h
    simp [h]
  · intro h
    simp [h]
  · cases h : E.isCheckmate mv.fen <;> simp [h]
  · intro hco hrep
    show replayFen E startFen (g.moveHistory ++ [mv.san]) = some mv.fen
    rw [replayFen_append, hrep]
    obtain ⟨a, ha⟩ := tryMove_move E g.boardState mfrom mto promotion mv hmv
    exact hco _ _ _ ha

/-- Witness for C3: white plays e2-e4 at `stW` through the scripted
engine; the stored game gains SAN `"e4"`, the post-move FEN, turn black,
stays `active`, and the replay invariant holds at the new state. -/
theorem make_move_success_witness :
    ∃ g2,
      getGameByRoomId
        (handleMakeMove ETest stW 0 (some "e2") (some "e4") none).1.games 1 =
        some g2 ∧
      g2.moveHistory = ["e4"] ∧
      g2.boardState = fenAfterE4 ∧
      g2.currentTurn = Color.black ∧
      g2.status = GStatus.active ∧
      replayFen ETest startFen g2.moveHistory = some g2.boardState := by
  obtain ⟨hrooms, hclients, hchats, g2, hfind, hh, hb, ht, hcm, hncm, hd, hcons⟩ :=
    make_move_success ETest stW 0 (some "e2") (some "e4") none clW 1 gameW
      ⟨"e4", fenAfterE4, "p", none⟩ rfl rfl rfl rfl rfl
      ⟨⟨"p", 'w'⟩, by decide, by decide⟩ (by decide)
  refine ⟨g2, hfind, ?_, hb, ?_, (hncm (by decide)).1, hcons ETest_coherent rfl⟩
  · simpa using hh
  · rw [ht]
    decide

/-- C7: under the success preconditions, the move is always attempted
first without a promotion piece; a supplied promotion is only used in a
single retry after the first attempt fails; and a move whose first
attempt fails with no (truthy) promotion supplied — in particular a
promotion-requiring move submitted without a promotion piece — fails
with `'Invalid move'` and changes nothing. -/
theorem promotion_retry_logic (E : Engine) (st : ServerState) (sender : Nat)
    (mfrom mto promotion : Option String) (c : Session) (rid : Nat)
    (g : Game) (p : Piece)
    (hc : lookupClient st.clients sender = some c)
    (hrid : c.roomId = some rid)
    (hg : getGameByRoomId st.games rid = some g)
    (hact : g.status = GStatus.active)
    (hturn : c.color = some g.currentTurn)
    (hpe : E.getPiece g.boardState mfrom = some p)
    (hpc : p.pcolor = expectedColorChar g.currentTurn) :
    (∀ mv, E.move g.boardState ⟨mfrom, mto, none⟩ = some mv →
      handleMakeMove E st sender mfrom mto promotion =
        applyMoveSuccess E st rid g mfrom mto promotion mv) ∧
    (∀ mv, E.move g.boardState ⟨mfrom, mto, none⟩ = none →
      strTruthy promotion = true →
      E.move g.boardState ⟨mfrom, mto, promotion⟩ = some mv →
      handleMakeMove E st sender mfrom mto promotion =
        applyMoveSuccess E st rid g mfrom mto promotion mv) ∧
    (E.move g.boardState ⟨mfrom, mto, none⟩ = none →
      strTruthy promotion = true →
      E.move g.boardState ⟨mfrom, mto, promotion⟩ = none →
      handleMakeMove E st sender mfrom mto promotion =
        (st, [(sender, SMsg.error "Invalid move")])) ∧
    (E.move g.boardState ⟨mfrom, mto, none⟩ = none →
      strTruthy promotion = false →
      handleMakeMove E st sender mfrom mto promotion =
        (st, [(sender, SMsg.error "Invalid move")])) := by
  refine ⟨?_, ?_, ?_, ?_⟩
  · intro mv h1
    have htry : tryMove E g.boardState mfrom mto promotion = some mv := by
      simp [tryMove, h1]
    simp [handleMakeMove, hc, hrid, hg, hact, hturn, hpe, hpc, htry]
  · intro mv h1 h2 h3
    have htry : tryMove E g.boardState mfrom mto promotion = some mv := by
      simp [tryMove, h1, h2, h3]
    simp [handleMakeMove, hc, hrid, hg, hact, hturn, hpe, hpc, htry]
  · intro h1 h2 h3
    have htry : tryMove E g.boardState mfrom mto promotion = none := by
      simp [tryMove, h1, h2, h3]
    simp [handleMakeMove, hc, hrid, hg, hact, hturn, hpe, hpc, htry]
  · intro h1 h2
    have htry : tryMove E g.boardState mfrom mto promotion = none := by
      simp [tryMove, h1, h2]
    simp [handleMakeMove, hc, hrid, hg, hact, hturn, hpe, hpc, htry]

/-- Witness for C7 at the promotion position `stP`: a7-a8 without a
promotion piece fails with `'Invalid move'` and leaves the state
untouched; with `promotion = "q"` the first attempt still fails and the
single retry succeeds. -/
theorem promotion_retry_logic_witness :
    handleMakeMove ETest stP 0 (some "a7") (some "a8") none =
      (stP, [(0, SMsg.error "Invalid move")]) ∧
    handleMakeMove ETest stP 0 (some "a7") (some "a8") (some "q") =
      applyMoveSuccess ETest stP 1 gameP (some "a7") (some "a8") (some "q")
        ⟨"a8=Q", promoFenAfter, "p", none⟩ := by
  constructor
  · exact (promotion_retry_logic ETest stP 0 (some "a7") (some "a8") none clW 1
      gameP ⟨"p", 'w'⟩ rfl rfl rfl rfl rfl (by decide) rfl).2.2.2
      (by decide) (by decide)
  · exact (promotion_retry_logic ETest stP 0 (some "a7") (some "a8") (some "q")
      clW 1 gameP ⟨"p", 'w'⟩ rfl rfl rfl rfl rfl (by decide) rfl).2.1
      ⟨"a8=Q", promoFenAfter, "p", none⟩ (by decide) (by decide) (by decide)
